import Mathlib

/-!
Verification of the SmartPDF-Analyzer page-processing pipeline.

The Python sources (`api_client.py`, `datasheet_parser.py`,
`markdown_generator.py`, `pdf_utils.py`, `prompts.py`) are shallowly embedded
below.  Pure text transformations become functions on `String` / `List Char`;
the stateful page loop becomes an explicit recursion producing a trace; the
HTTP transport is represented by the response value each request would
receive; file I/O is represented by the written/read contents.

Regex notes: the sources use three concrete patterns,
  * `<thinking>.*?</thinking>` (DOTALL) — non-greedy leftmost match,
  * `\n{3,}` replaced by `\n\n` — maximal runs of newlines,
  * `\n\s*Page \d+\s*\n` (IGNORECASE) and `\n\s*\d+\s*\n` replaced by `\n`.
Each is modelled by a direct scanner whose behaviour on these fixed patterns
coincides with Python `re.sub` (leftmost match, scanning resumes after the
matched text, replacements are not rescanned).
-/

/-- Whitespace characters matched by Python's `\s` and stripped by
`str.strip()` (ASCII range; `\x0b` is `\v`, `\x0c` is `\f`). -/
def isPySpace (c : Char) : Bool :=
  c = ' ' || c = '\t' || c = '\n' || c = '\r' || c = '\x0b' || c = '\x0c'

/-- ASCII decimal digit, as matched by `\d` on the inputs at hand. -/
def isDigitChar (c : Char) : Bool := '0' ≤ c && c ≤ '9'

/-- Python `str.lower()` restricted to the alphabets the sources use:
ASCII letters and the Russian Cyrillic letters appearing in
`markdown_generator.py` (`А`–`Я` shift by 0x20, plus `Ё`). -/
def pyLower (c : Char) : Char :=
  if 'A' ≤ c && c ≤ 'Z' then Char.ofNat (c.toNat + 32)
  else if 'А' ≤ c && c ≤ 'Я' then Char.ofNat (c.toNat + 32)
  else if c = 'Ё' then 'ё'
  else c

/-- `str.lower()` on a whole string. -/
def lowerStr (s : String) : String := String.mk (s.data.map pyLower)

/-- Python `str.strip()`: remove leading and trailing whitespace. -/
def pyStrip (s : String) : String :=
  String.mk (((s.data.dropWhile isPySpace).reverse.dropWhile isPySpace).reverse)

/-- `leadsWith pat l` is true when `pat` is an initial segment of `l`. -/
def leadsWith : List Char → List Char → Bool
  | [], _ => true
  | _ :: _, [] => false
  | p :: ps, c :: cs => p == c && leadsWith ps cs

/-- Leftmost occurrence of `pat` inside `l`: returns the text before the
occurrence and the text after it (`l = before ++ pat ++ after`). -/
def splitFirst (pat : List Char) : List Char → Option (List Char × List Char)
  | [] => if pat.isEmpty then some ([], []) else none
  | c :: rest =>
    if leadsWith pat (c :: rest) then some ([], (c :: rest).drop pat.length)
    else
      match splitFirst pat rest with
      | some (b, a) => some (c :: b, a)
      | none => none

/-- `pat` occurs somewhere inside `s` (Python's `in` operator on `str`). -/
def hasSubstr (pat s : String) : Bool := (splitFirst pat.data s.data).isSome

/-- The opening delimiter of the model's scratch block. -/
def openTag : List Char := "<thinking>".data

/-- The closing delimiter of the model's scratch block. -/
def closeTag : List Char := "</thinking>".data

/-- One `re.sub(r'<thinking>.*?</thinking>', '', ·, flags=DOTALL)` pass
(`api_client.py` line 151), written with explicit fuel (one unit per
replaced block; `fuel := l.length` is always enough because every replaced
block is non-empty). The leftmost `<thinking>` with some `</thinking>` after
it is removed together with the shortest (non-greedy) enclosed text, and
scanning resumes after the removed block. -/
def stripThinkingFuel : Nat → List Char → List Char
  | 0, l => l
  | fuel + 1, l =>
    match splitFirst openTag l with
    | none => l
    | some (before, rest) =>
      match splitFirst closeTag rest with
      | none => l
      | some (_, after) => before ++ stripThinkingFuel fuel after

/-- Scratch-block removal on a character list. -/
def stripThinkingL (l : List Char) : List Char := stripThinkingFuel l.length l

/-- Emit a maximal run of `k` newlines after `re.sub(r'\n{3,}', '\n\n', ·)`:
runs of three or more collapse to exactly two, shorter runs are kept. -/
def emitNL (k : Nat) : List Char :=
  if 3 ≤ k then ['\n', '\n'] else List.replicate k '\n'

/-- Scanner for `re.sub(r'\n{3,}', '\n\n', ·)`: `k` counts the newline run
currently being read. -/
def collapseNLGo : Nat → List Char → List Char
  | k, [] => emitNL k
  | k, c :: rest =>
    if c = '\n' then collapseNLGo (k + 1) rest
    else emitNL k ++ c :: collapseNLGo 0 rest

/-- `re.sub(r'\n{3,}', '\n\n', ·)` on a character list
(`api_client.py` line 153 and `markdown_generator.py` line 69). -/
def collapseNL (l : List Char) : List Char := collapseNLGo 0 l

/-- Response post-processing performed by `OpenAIClient.process_page`
(`api_client.py` lines 150–155): remove every scratch block, then collapse
newline runs of three or more down to two. -/
def cleanResponse (s : String) : String :=
  String.mk (collapseNL (stripThinkingL s.data))

/-- Length of the prefix of `l` ending at its last `'\n'`
(`none` when `l` has no newline). -/
def uptoLastNL : List Char → Option Nat
  | [] => none
  | c :: rest =>
    match uptoLastNL rest with
    | some n => some (n + 1)
    | none => if c = '\n' then some 1 else none

/-- Attempt to match the tail of `r'\n\s*\d+\s*\n'` directly after a `'\n'`
(`markdown_generator.py` line 73).  Backtracking analysis of the Python
pattern: the first `\s*` must be the maximal whitespace run (anything shorter
leaves a whitespace character where `\d+` needs a digit), `\d+` takes the
maximal digit run, and the match ends at the last newline of the following
whitespace run.  Returns the text after the match. -/
def tryNumMatch (l : List Char) : Option (List Char) :=
  let r1 := l.dropWhile isPySpace
  if (r1.takeWhile isDigitChar).isEmpty then none
  else
    let r2 := r1.dropWhile isDigitChar
    match uptoLastNL (r2.takeWhile isPySpace) with
    | some n => some (r2.drop n)
    | none => none

/-- Attempt to match the tail of `r'\n\s*Page \d+\s*\n'` (IGNORECASE) directly
after a `'\n'` (`markdown_generator.py` line 72).  Same backtracking analysis
as `tryNumMatch`, with the literal `Page ` (case-insensitive letters, literal
space) between the whitespace run and the digits. -/
def tryPageMatch (l : List Char) : Option (List Char) :=
  match l.dropWhile isPySpace with
  | p :: a :: g :: e :: sp :: r2 =>
    if pyLower p == 'p' && pyLower a == 'a' && pyLower g == 'g' &&
        pyLower e == 'e' && sp == ' ' then
      if (r2.takeWhile isDigitChar).isEmpty then none
      else
        let r3 := r2.dropWhile isDigitChar
        match uptoLastNL (r3.takeWhile isPySpace) with
        | some n => some (r3.drop n)
        | none => none
    else none
  | _ => none

/-- Generic `re.sub(pattern, '\n', ·)` scanner for the two page-number
patterns: at each `'\n'` try the matcher; on success emit the replacement
`'\n'` and resume after the match (the final newline of the match is
consumed, exactly as Python resumes after the matched text).  Fuel decreases
once per examined position, so `fuel := l.length` always suffices. -/
def subLinesGo (tryMatch : List Char → Option (List Char)) :
    Nat → List Char → List Char
  | _, [] => []
  | 0, l => l
  | fuel + 1, c :: rest =>
    if c = '\n' then
      match tryMatch rest with
      | some rest' => '\n' :: subLinesGo tryMatch fuel rest'
      | none => '\n' :: subLinesGo tryMatch fuel rest
    else c :: subLinesGo tryMatch fuel rest

/-- One full substitution pass over `l`. -/
def subLines (tryMatch : List Char → Option (List Char)) (l : List Char) :
    List Char := subLinesGo tryMatch l.length l

/-- `clean_markdown` (`markdown_generator.py` lines 58–77): collapse newline
runs, then strip `Page N` lines, then strip bare number lines, in source
order. -/
def clean_markdown (s : String) : String :=
  String.mk (subLines tryNumMatch (subLines tryPageMatch (collapseNL s.data)))


/-!
## Prompts (`prompts.py`)

The four constants are carried verbatim (including the leading and trailing
newline of each Python triple-quoted string).  `{page_num}`, `{total_pages}`
and `{target_language}` are the `str.format` placeholders.
-/

/-- `SYSTEM_MESSAGE_EXTRACT` from `prompts.py`. -/
def SYSTEM_MESSAGE_EXTRACT : String := "
You are an expert in extracting and structuring information from technical documentation.
Your task is to extract all valuable information from datasheet pages and format it in Markdown.
Use headings, lists, and other Markdown elements for optimal presentation.
Preserve all technical specifications, parameters, diagrams descriptions, and functional details.

For tables:
- USE LISTS INSTEAD OF TABLES when the table contains more than 3 columns or if any cell would contain more than 50 characters
- If using tables, limit cell content to at most 50 characters
- Never repeat characters (like dots or dashes) within table cells
- If a cell would contain too much text, summarize it concisely or split it into multiple bullet points outside the table
- Split complex tables into multiple simpler tables with clearer headings
- If you detect very long texts or repeated characters appearing in a table cell, stop immediately and reformat as bullet points

For table of contents:
- NEVER use dots or other repeated characters to fill space between entry and page number
- Use clean formatting like \"Section Name - Page X\" or simply list section names without page numbers
- If you need to show hierarchy, use proper indentation with spaces or nested lists
- Do not try to mimic print-style table of contents with alignment dots

Include only essential technical information, ignoring page numbers, headers, footers, and other formatting elements not related to the content.
Your output should be well-structured, comprehensive, and immediately usable as technical documentation.
"

/-- `SYSTEM_MESSAGE_TRANSLATE` from `prompts.py`. -/
def SYSTEM_MESSAGE_TRANSLATE : String := "
You are an expert in extracting, structuring, and translating information from technical documentation.
Your task is to extract all valuable information from datasheet pages and directly translate it into {target_language}, formatting the translated content in Markdown.
Use headings, lists, and other Markdown elements for optimal presentation.
Preserve all technical specifications, parameters, diagrams descriptions, and functional details.

For tables:
- USE LISTS INSTEAD OF TABLES when the table contains more than 3 columns or if any cell would contain more than 50 characters
- If using tables, limit cell content to at most 50 characters
- Never repeat characters (like dots or dashes) within table cells
- If a cell would contain too much text, summarize it concisely or split it into multiple bullet points outside the table
- Split complex tables into multiple simpler tables with clearer headings
- If you detect very long texts or repeated characters appearing in a table cell, stop immediately and reformat as bullet points

For table of contents:
- NEVER use dots or other repeated characters to fill space between entry and page number
- Use clean formatting like \"Section Name - Page X\" or simply list section names without page numbers
- If you need to show hierarchy, use proper indentation with spaces or nested lists
- Do not try to mimic print-style table of contents with alignment dots

Include only essential technical information, ignoring page numbers, headers, footers, and other formatting elements not related to the content.
DO NOT include the source text in your response. Provide ONLY the translated content.
Ensure that technical terms are accurately translated while maintaining the original meaning.
Keep all units, chemical formulas, mathematical expressions, and model numbers unchanged.
Your output should be well-structured, comprehensive, and immediately usable as translated technical documentation.
"

/-- `PAGE_INSTRUCTION_TEMPLATE` from `prompts.py`. -/
def PAGE_INSTRUCTION_TEMPLATE : String := "
This is page {page_num} of {total_pages} from the datasheet.
Extract all technical information and format it in Markdown.
Use headings, lists, and other Markdown elements for optimal presentation.
Maintain technical integrity while creating a clean, structured document.

For register descriptions and technical data:
- Present registers in a consistent format: name, address, type, bank, etc. as plain text, not in tables
- For register bit fields, use bullet points or numbered lists instead of tables when possible
- If tables are absolutely necessary, keep them EXTREMELY simple - maximum 3 columns
- Limit cell content to 50 characters or less
- NEVER use tables for content with lengthy descriptions
- NEVER create repeating patterns of characters (dots, dashes, etc.)

If this page contains a table of contents (TOC):
- Format it as a clean list WITHOUT dots between entries and page numbers
- Use a simple format like \"Section Name - Page X\" or just list the section names
- DO NOT attempt to reproduce print-style table of contents with alignment dots
"

/-- `PAGE_INSTRUCTION_TEMPLATE_TRANSLATE` from `prompts.py`. -/
def PAGE_INSTRUCTION_TEMPLATE_TRANSLATE : String := "
This is page {page_num} of {total_pages} from the datasheet.
Extract all technical information, translate it directly to {target_language}, and format it in Markdown.
DO NOT include the source text in your response. Only provide the translated content.
Use headings, lists, and other Markdown elements for optimal presentation while maintaining technical accuracy.
Keep all measurements, part numbers, and technical values unchanged during translation.

For register descriptions and technical data:
- Present registers in a consistent format: name, address, type, bank, etc. as plain text, not in tables
- For register bit fields, use bullet points or numbered lists instead of tables when possible
- If tables are absolutely necessary, keep them EXTREMELY simple - maximum 3 columns
- Limit cell content to 50 characters or less
- NEVER use tables for content with lengthy descriptions
- NEVER create repeating patterns of characters (dots, dashes, etc.)

If this page contains a table of contents (TOC):
- Format it as a clean list WITHOUT dots between entries and page numbers
- Use a simple format like \"Section Name - Page X\" or just list the section names
- DO NOT attempt to reproduce print-style table of contents with alignment dots
"

/-!
## Extraction client (`api_client.py`)
-/

/-- Python truthiness of an optional string (`None` and `""` are falsy):
used for `if translate and target_language` and `if args.translate and not
args.target_language`. -/
def truthyOpt : Option String → Bool
  | none => false
  | some s => s != ""

/-- Replace every occurrence of `pat` (non-empty) by `repl`, scanning left to
right and resuming after each replacement — the semantics of a single
`str.format` placeholder substitution.  Fuel decreases once per examined
position, so `fuel := l.length` suffices. -/
def replaceAllGo (pat repl : List Char) : Nat → List Char → List Char
  | _, [] => []
  | 0, l => l
  | fuel + 1, c :: rest =>
    if leadsWith pat (c :: rest) then
      repl ++ replaceAllGo pat repl fuel ((c :: rest).drop pat.length)
    else c :: replaceAllGo pat repl fuel rest

/-- `template.format(...)` for one named placeholder. -/
def pyFormat1 (template placeholder value : String) : String :=
  String.mk (replaceAllGo placeholder.data value.data template.data.length template.data)

/-- The directive appended to every system message
(`api_client.py` lines 95–96). -/
def thinkingDirective : String := "First, analyze the document in <thinking></thinking> tags, describing what you see and your approach to extracting the text. Then provide the final extracted text."

/-- System message selection and formatting (`api_client.py` lines 90–96). -/
def systemMessageFor (translate : Bool) (targetLanguage : Option String) : String :=
  let base := if translate then SYSTEM_MESSAGE_TRANSLATE else SYSTEM_MESSAGE_EXTRACT
  let formatted :=
    if translate && truthyOpt targetLanguage then
      pyFormat1 base "{target_language}" (targetLanguage.getD "")
    else base
  formatted ++ "\n\n" ++ thinkingDirective

/-- One element of a user message's content array. -/
inductive ContentPart
  | text (s : String)
  | imageUrl (url : String)
deriving DecidableEq

/-- Content of a chat message: the system message is a plain string, the user
message is an array of parts. -/
inductive MsgContent
  | plain (text : String)
  | parts (items : List ContentPart)
deriving DecidableEq

/-- A chat message of the request body. -/
structure ChatMsg where
  role : String
  content : MsgContent
deriving DecidableEq

/-- The message list built by `process_page` (`api_client.py` lines 86–112):
a system message followed by one user message holding the instruction text
and the inline base64 image.  The `previousContext` argument is accepted but
never used — no context block of any kind is added to the request. -/
def buildMessages (translate : Bool) (targetLanguage : Option String)
    (base64Image : String) (instructions : String)
    (_previousContext : String) : List ChatMsg :=
  [ { role := "system", content := .plain (systemMessageFor translate targetLanguage) },
    { role := "user",
      content := .parts
        [ .text instructions,
          .imageUrl ("data:image/png;base64," ++ base64Image) ] } ]

/-- `"gemma" in self.model.lower()` (`api_client.py` line 123). -/
def usesGemmaParams (model : String) : Bool := hasSubstr "gemma" (lowerStr model)

/-- The request payload (`api_client.py` lines 115–127).  The float-valued
decoding constants (`temperature`, `top_p`, ...) carry no claim-relevant
content; only the presence of the Gemma-specific overrides is kept, as the
boolean `extraDecodingParams`. -/
structure RequestPayload where
  model : String
  messages : List ChatMsg
  maxTokens : Nat
  extraDecodingParams : Bool
deriving DecidableEq

/-- Payload construction for one request. -/
def buildPayload (model : String) (messages : List ChatMsg) : RequestPayload :=
  { model := model, messages := messages, maxTokens := 4096,
    extraDecodingParams := usesGemmaParams model }

/-- `choices[i].message` — the `"content"` key may be absent. -/
structure ChoiceMessage where
  content : Option String
deriving DecidableEq

/-- One element of the `"choices"` array — the `"message"` key may be absent. -/
structure Choice where
  message : Option ChoiceMessage
deriving DecidableEq

/-- The parsed JSON body of a response — the `"choices"` key may be absent. -/
structure ApiBody where
  choices : Option (List Choice)
deriving DecidableEq

/-- An HTTP response as the client observes it: transport status, raw text,
and the parsed JSON body. -/
structure HttpResponse where
  status : Nat
  text : String
  body : ApiBody
deriving DecidableEq

/-- `result["choices"][0]["message"]["content"]` (`api_client.py` line 146):
`none` exactly when a `KeyError` (absent `choices`/`message`/`content` key)
or `IndexError` (empty `choices` array) would be raised. -/
def extractContent (b : ApiBody) : Option String :=
  match b.choices with
  | none => none
  | some [] => none
  | some (c :: _) =>
    match c.message with
    | none => none
    | some m => m.content

/-- The two exceptions `process_page` raises (`api_client.py` lines 140 and
158): a non-200 status carrying the status code and response text, or an
unexpected response format carrying the parsed body it was extracted from. -/
inductive ApiError
  | upstream (status : Nat) (body : String)
  | malformed (raw : ApiBody)
deriving DecidableEq

/-- Response handling of `OpenAIClient.process_page`
(`api_client.py` lines 134–158): non-200 status fails with the status and
body; a 200 response without `choices[0].message.content` fails with the raw
parsed body; otherwise the scratch-block-stripped, newline-collapsed content
is returned. -/
def processPageResult (resp : HttpResponse) : Except ApiError String :=
  if resp.status ≠ 200 then .error (.upstream resp.status resp.text)
  else
    match extractContent resp.body with
    | some content => .ok (cleanResponse content)
    | none => .error (.malformed resp.body)

/-- `process_page` against a transport: `t n` is the response the `(n+1)`-th
`requests.post` of the call would receive.  The source sends exactly one
request (line 135, straight-line code, no retry), so only `t 0` is consulted;
the second component counts the requests sent. -/
def processPageTransport (t : Nat → HttpResponse) : Except ApiError String × Nat :=
  (processPageResult (t 0), 1)

/-- A well-formed 200 response whose content is `s`. -/
def okResponse (s : String) : HttpResponse :=
  { status := 200, text := "ok",
    body := { choices := some [{ message := some { content := some s } }] } }

/-- A failed transport response with status `code` and body text `t`. -/
def errResponse (code : Nat) (t : String) : HttpResponse :=
  { status := code, text := t, body := { choices := none } }


/-!
## Metadata and merging (`pdf_utils.get_pdf_metadata`,
`markdown_generator.merge_markdown_files`)
-/

/-- The optional entries of a PDF's document-information dictionary, as
`PyPDF2` exposes them (`/Title`, `/Author`, ...): each may be absent. -/
structure RawPdfInfo where
  title : Option String
  author : Option String
  subject : Option String
  creator : Option String
  producer : Option String
deriving DecidableEq

/-- The dictionary returned by `get_pdf_metadata` (`pdf_utils.py` lines
88–110): every key present, with the source's defaults for absent PDF
entries. -/
structure PdfMeta where
  title : String
  author : String
  subject : String
  creator : String
  producer : String
  pageCount : Nat
deriving DecidableEq

/-- `get_pdf_metadata` (`pdf_utils.py` lines 98–110). -/
def get_pdf_metadata (raw : RawPdfInfo) (pageCount : Nat) : PdfMeta :=
  { title := raw.title.getD "Unknown"
    author := raw.author.getD "Unknown"
    subject := raw.subject.getD ""
    creator := raw.creator.getD ""
    producer := raw.producer.getD ""
    pageCount := pageCount }

/-- The metadata keys `merge_markdown_files` consults, each `none` when the
key is absent from the dictionary it receives (so `metadata.get` returns
`None`). -/
structure MetaDict where
  title : Option String
  author : Option String
  subject : Option String
deriving DecidableEq

/-- View of the full metadata dictionary as the keys `merge_markdown_files`
reads. -/
def toDict (m : PdfMeta) : MetaDict :=
  { title := some m.title, author := some m.author, subject := some m.subject }

/-- Header construction of `merge_markdown_files` (`markdown_generator.py`
lines 36–43).  `metadata = none` models a falsy `metadata` argument
(`None`/empty dict).  `metadata.get("title", "Документация")` defaults only
an absent key; `if metadata.get("author")`/`...("subject")` emit a line
exactly when the key is present with a non-empty value. -/
def headerOfDict (metadata : Option MetaDict) : String :=
  match metadata with
  | none => ""
  | some m =>
    "# " ++ (m.title.getD "Документация") ++ "\n\n"
      ++ (if truthyOpt m.author then "**Автор**: " ++ m.author.getD "" ++ "\n\n" else "")
      ++ (if truthyOpt m.subject then "**Описание**: " ++ m.subject.getD "" ++ "\n\n" else "")
      ++ "---\n\n"

/-- `"\n\n".join(content)`. -/
def joinSep (sep : String) : List String → String
  | [] => ""
  | [s] => s
  | s :: rest => s ++ sep ++ joinSep sep rest

/-- The file-reading loop of `merge_markdown_files` (`markdown_generator.py`
lines 46–51): `fs p` is the content of file `p`, `none` when the file does
not exist.  Existing files are read and stripped in list order; a missing
path is skipped without any error. -/
def readContents (fs : String → Option String) : List String → List String
  | [] => []
  | p :: rest =>
    match fs p with
    | some content => pyStrip content :: readContents fs rest
    | none => readContents fs rest

/-- `merge_markdown_files` (`markdown_generator.py` lines 23–55): the string
written to the output file. -/
def merge_markdown_files (fs : String → Option String) (filePaths : List String)
    (metadata : Option MetaDict) : String :=
  headerOfDict metadata ++ joinSep "\n\n" (readContents fs filePaths)

/-!
## Table of contents (`markdown_generator.add_table_of_contents`)
-/

/-- Split into the lines that `re.MULTILINE` anchors delimit
(`content.split('\n')`, keeping a trailing empty line). -/
def splitLinesL : List Char → List (List Char)
  | [] => [[]]
  | c :: rest =>
    if c = '\n' then [] :: splitLinesL rest
    else
      match splitLinesL rest with
      | [] => [[c]]
      | line :: more => (c :: line) :: more

/-- Drop through the first newline: the next `^` anchor position. -/
def skipLine (l : List Char) : List Char :=
  (l.dropWhile (fun c => c ≠ '\n')).drop 1

/-- One match attempt of `r'^(#{1,6})\s+(.+)$'` (`markdown_generator.py`
line 91) at a line-start position.  Backtracking analysis of the pattern:
`#{1,6}` must take the whole leading hash run (1–6 hashes; a run of 7+ never
matches); `\s+` takes the maximal whitespace run — and since `\s` matches
newlines, the run may span line breaks, so the captured `(.+)` text can come
from a later line; `(.+)` then runs to the end of its line.  When nothing
follows the whitespace run (end of input), `\s+` backtracks to the last
position from which `(.+)$` can still match one non-newline character.
Returns `(level, text, remainder after the match)`. -/
def tryHeading (l : List Char) : Option (Nat × String × List Char) :=
  let h := (l.takeWhile (fun c => c = '#')).length
  if 1 ≤ h && h ≤ 6 then
    let rest := l.drop h
    let W := rest.takeWhile isPySpace
    if W.isEmpty then none
    else
      let after := rest.drop W.length
      if after.isEmpty then
        let tailW := W.drop 1
        let m := tailW.length - (tailW.reverse.takeWhile (fun c => c = '\n')).length
        match (tailW.take m).getLast? with
        | some c => some (h, String.mk [c], tailW.drop m)
        | none => none
      else
        let text := after.takeWhile (fun c => c ≠ '\n')
        some (h, String.mk text, after.drop text.length)
  else none

/-- The scan of `re.findall(r'^(#{1,6})\s+(.+)$', content, re.MULTILINE)`:
attempt a match at each line start; on success resume after the match (the
intervening positions are not line starts, so only the next line can match),
on failure move to the next line.  Each step strictly shortens the input, so
`fuel := length + 1` always suffices. -/
def findHeadersGo : Nat → List Char → List (Nat × String)
  | 0, _ => []
  | _, [] => []
  | fuel + 1, c :: restl =>
    match tryHeading (c :: restl) with
    | some (lv, t, rem) => (lv, t) :: findHeadersGo fuel (skipLine rem)
    | none => findHeadersGo fuel (skipLine (c :: restl))

/-- `re.findall(r'^(#{1,6})\s+(.+)$', content, re.MULTILINE)`: every heading
of the document, with its level (number of leading hash marks) and text. -/
def findHeaders (content : String) : List (Nat × String) :=
  findHeadersGo (content.data.length + 1) content.data

/-- Anchor derivation (`markdown_generator.py` lines 108–109): lowercase,
spaces to hyphens, then `re.sub(r'[^\w\-]', '', ·)`.  Python's `\w` is
modelled on the alphabets the inputs use: ASCII alphanumerics, underscore,
and Cyrillic letters. -/
def isWordChar (c : Char) : Bool :=
  ('a' ≤ c && c ≤ 'z') || ('A' ≤ c && c ≤ 'Z') || ('0' ≤ c && c ≤ '9')
    || c = '_' || ('А' ≤ c && c ≤ 'я') || c = 'Ё' || c = 'ё'

/-- The anchor of a heading text. -/
def anchorOf (text : String) : String :=
  String.mk
    (((text.data.map pyLower).map (fun c => if c = ' ' then '-' else c)).filter
      (fun c => isWordChar c || c = '-'))

/-- One TOC entry line (`markdown_generator.py` lines 104–112): indentation
`2 * (level - 1)` spaces, a bullet, the heading text linked to its anchor,
and the trailing newline of `toc += f"...\n"`. -/
def tocEntryLine (level : Nat) (text : String) : String :=
  String.mk (List.replicate ((level - 1) * 2) ' ')
    ++ "- [" ++ text ++ "](#" ++ anchorOf text ++ ")\n"

/-- The TOC entry loop (`markdown_generator.py` lines 99–112): one entry per
heading, skipping any heading whose lowercased text is `"содержание"`. -/
def tocLines : List (Nat × String) → String
  | [] => ""
  | (level, text) :: rest =>
    (if lowerStr text == "содержание" then "" else tocEntryLine level text)
      ++ tocLines rest

/-- The generated TOC block: the `## Содержание` heading followed by the
entries (`markdown_generator.py` lines 97–112). -/
def tocOf (content : String) : String :=
  "## Содержание\n\n" ++ tocLines (findHeaders content)

/-- End offset of the first `r'^#.+$'` match (`markdown_generator.py`
line 115): the first line starting with `'#'` and holding at least one
further character; the offset counts the characters of preceding lines plus
their newlines plus that line itself. -/
def firstHashLineEnd : List (List Char) → Option Nat
  | [] => none
  | line :: rest =>
    if line.head? = some '#' && 2 ≤ line.length then some line.length
    else
      match firstHashLineEnd rest with
      | some n => some (line.length + 1 + n)
      | none => none

/-- `add_table_of_contents` (`markdown_generator.py` lines 80–118): return
the content unchanged when it has no heading, otherwise insert the TOC block
after the end of the first `#`-line.  `none` models the unhandled
`AttributeError` the source raises when `findHeaders` is non-empty but no
line matches `^#.+$` (possible only when the single heading match spans a
line break, e.g. a bare `#` line whose heading text comes from the next
line). -/
def add_table_of_contents (content : String) : Option String :=
  match findHeaders content with
  | [] => some content
  | _ :: _ =>
    match firstHashLineEnd (splitLinesL content.data) with
    | none => none
    | some e =>
      some (String.mk (content.data.take e) ++ "\n\n" ++ tocOf content ++ "\n"
        ++ String.mk (content.data.drop e))


/-!
## Image resize (`pdf_utils.resize_image_if_needed`)

The Python float arithmetic (`(max_size / file_size) ** 0.5`, `int(...)`) is
modelled over the reals: `int()` of a positive float is the floor.  The
re-encoding performed by `img.save(image_path, optimize=True)` produces a
byte size outside the function's control; it is therefore a parameter
`encode`, and the definition shows that the result is accepted without any
further size check or iteration.
-/

/-- The 5 MiB default byte budget (`max_size: int = 5 * 1024 * 1024`). -/
def MAX_IMAGE_SIZE : Nat := 5 * 1024 * 1024

/-- An image file as `resize_image_if_needed` observes it: its path, pixel
dimensions, and byte size on disk. -/
structure ImageFile where
  path : String
  width : Nat
  height : Nat
  sizeBytes : Nat
deriving DecidableEq

/-- `resize_image_if_needed` (`pdf_utils.py` lines 113–140): pass through
when within budget, otherwise scale both dimensions by
`sqrt(max_size / file_size)` (floored), overwrite the same path with the
re-encoded image, and return.  No loop re-checks the resulting size. -/
noncomputable def resize_image_if_needed (encode : Nat → Nat → Nat)
    (img : ImageFile) : ImageFile :=
  if img.sizeBytes ≤ MAX_IMAGE_SIZE then img
  else
    let scale : ℝ := Real.sqrt ((MAX_IMAGE_SIZE : ℝ) / (img.sizeBytes : ℝ))
    let newW : Nat := ⌊(img.width : ℝ) * scale⌋₊
    let newH : Nat := ⌊(img.height : ℝ) * scale⌋₊
    { path := img.path, width := newW, height := newH,
      sizeBytes := encode newW newH }

/-!
## The page loop (`datasheet_parser.process_datasheet`) and `main`
-/

/-- The arguments of `process_datasheet` that shape a page's processing
(`datasheet_parser.py` lines 48–49).  `contextWindow` and `useContext` are
accepted by the source and then never consulted by the loop. -/
structure RunConfig where
  contextWindow : Nat
  translate : Bool
  targetLanguage : Option String
  totalPages : Nat
  useContext : Bool
  debug : Bool
deriving DecidableEq

/-- `PAGE_INSTRUCTION_TEMPLATE.format(page_num=..., total_pages=...)`
(`datasheet_parser.py` lines 152–155). -/
def formatPageInstruction (pageNum totalPages : Nat) : String :=
  pyFormat1 (pyFormat1 PAGE_INSTRUCTION_TEMPLATE "{page_num}" (toString pageNum))
    "{total_pages}" (toString totalPages)

/-- `PAGE_INSTRUCTION_TEMPLATE_TRANSLATE.format(...)`
(`datasheet_parser.py` lines 146–150). -/
def formatPageInstructionTranslate (pageNum totalPages : Nat)
    (targetLanguage : String) : String :=
  pyFormat1
    (pyFormat1
      (pyFormat1 PAGE_INSTRUCTION_TEMPLATE_TRANSLATE "{page_num}" (toString pageNum))
      "{total_pages}" (toString totalPages))
    "{target_language}" targetLanguage

/-- Instruction construction for one page (`datasheet_parser.py` lines
144–155): the translate template is used only when `translate` holds AND
`target_language` is truthy; otherwise — including `translate` with an
empty/absent language — the extraction template is produced. -/
def buildInstruction (translate : Bool) (targetLanguage : Option String)
    (pageNum totalPages : Nat) : String :=
  if translate && truthyOpt targetLanguage then
    formatPageInstructionTranslate pageNum totalPages (targetLanguage.getD "")
  else formatPageInstruction pageNum totalPages

/-- One page of the run: its 1-based page number, the base64 payload of its
(possibly resized) image as `encode_image` would produce it, and the HTTP
response its single request receives. -/
structure PageInput where
  pageNum : Nat
  payload : String
  response : HttpResponse
deriving DecidableEq

/-- The per-page record of the loop trace. -/
structure PageTrace where
  pageNum : Nat
  contextPassed : String
  messages : List ChatMsg
  artifact : Option String
deriving DecidableEq

/-- One iteration of the page loop (`datasheet_parser.py` lines 130–186):
build the instruction, set `previous_context = ""` (line 161 — always empty,
whatever `use_context` or `context_window` say), call the client, and on
success clean the Markdown and record the page artifact; any exception is
caught, logged and ignored (lines 184–186), leaving no artifact.
`resize_image_if_needed` returns the input path unchanged, so the payload is
the (post-resize) image encoding carried by the `PageInput`.  The debug-mode
`time.sleep` is pure pacing with no effect on any value. -/
def pageStep (cfg : RunConfig) (p : PageInput) : PageTrace :=
  let instructions := buildInstruction cfg.translate cfg.targetLanguage p.pageNum cfg.totalPages
  let previousContext := ""
  let msgs := buildMessages cfg.translate cfg.targetLanguage p.payload instructions previousContext
  match processPageResult p.response with
  | .ok markdownContent =>
    { pageNum := p.pageNum, contextPassed := previousContext, messages := msgs,
      artifact := some (clean_markdown markdownContent) }
  | .error _ =>
    { pageNum := p.pageNum, contextPassed := previousContext, messages := msgs,
      artifact := none }

/-- The page loop (`datasheet_parser.py` lines 130–186): pages in order, one
trace record each; failures never stop the loop.  (The `context` and
`context_pages` variables initialised at lines 123–124 are never written nor
read again and so do not appear.) -/
def processLoop (cfg : RunConfig) : List PageInput → List PageTrace
  | [] => []
  | p :: rest => pageStep cfg p :: processLoop cfg rest

/-- The per-page artifacts written by the loop, in order: page number and
Markdown file content of each succeeded page (`page_markdown_files` plus the
written contents, `datasheet_parser.py` lines 174–177). -/
def artifactsOf (cfg : RunConfig) (pages : List PageInput) : List (Nat × String) :=
  (processLoop cfg pages).filterMap (fun e => e.artifact.map (fun c => (e.pageNum, c)))

/-- The merged document (`datasheet_parser.py` lines 188–191): the header
from the run's metadata followed by the just-written page files' stripped
contents (every path in `page_markdown_files` exists, having just been
written, so each contributes). -/
def mergedDocument (meta : PdfMeta) (cfg : RunConfig) (pages : List PageInput) : String :=
  headerOfDict (some (toDict meta))
    ++ joinSep "\n\n" ((artifactsOf cfg pages).map (fun a => pyStrip a.2))

/-- The final document (`datasheet_parser.py` lines 193–200): the merged
file rewritten with the generated table of contents (`none` again modelling
the unreachable-in-practice `AttributeError`). -/
def finalDocument (meta : PdfMeta) (cfg : RunConfig) (pages : List PageInput) :
    Option String :=
  add_table_of_contents (mergedDocument meta cfg pages)

/-- The command-line arguments `main` inspects (`datasheet_parser.py` lines
206–231), with `pdfExists` standing for `os.path.exists(args.pdf_path)`. -/
structure Args where
  pdfExists : Bool
  translate : Bool
  targetLanguage : Option String
  startPage : Option Int
  endPage : Option Int
  debug : Bool
deriving DecidableEq

/-- The argument record `main` hands to `process_datasheet`
(`datasheet_parser.py` lines 235–248): `context_window = 0` and
`use_context = False` are hard-coded at the call site. -/
structure DatasheetCall where
  contextWindow : Nat
  translate : Bool
  targetLanguage : Option String
  startPage : Option Int
  endPage : Option Int
  debug : Bool
  useContext : Bool
deriving DecidableEq

/-- Outcome of `main`'s precondition checks: either an early `return 1`
(before `process_datasheet` is called, hence before any page is processed)
or the `process_datasheet` invocation. -/
inductive MainOutcome
  | exitEarly (code : Nat)
  | launched (call : DatasheetCall)
deriving DecidableEq

/-- `main` (`datasheet_parser.py` lines 206–255) up to the
`process_datasheet` call: missing PDF, translation without a target
language, a start page below 1, and an end page before the start page each
return exit code 1 before any processing. -/
def mainDispatch (a : Args) : MainOutcome :=
  if !a.pdfExists then .exitEarly 1
  else if a.translate && !truthyOpt a.targetLanguage then .exitEarly 1
  else if (match a.startPage with
           | some s => decide (s < 1)
           | none => false) then .exitEarly 1
  else if (match a.endPage, a.startPage with
           | some e, some s => decide (e < s)
           | _, _ => false) then .exitEarly 1
  else .launched
    { contextWindow := 0, translate := a.translate,
      targetLanguage := a.targetLanguage, startPage := a.startPage,
      endPage := a.endPage, debug := a.debug, useContext := false }

/-!
## Concrete fixtures used by witnesses and counterexamples
-/

/-- A 200 response with an empty `choices` array. -/
def noChoicesResponse : HttpResponse :=
  { status := 200, text := "ok", body := { choices := some [] } }

/-- A run configuration with a positive context window. -/
def cfgW : RunConfig :=
  { contextWindow := 2, translate := false, targetLanguage := none,
    totalPages := 3, useContext := true, debug := false }

/-- A page whose single request succeeds with content `s`. -/
def pageOk (n : Nat) (s : String) : PageInput :=
  { pageNum := n, payload := "img", response := okResponse s }

/-- A page whose single request fails upstream. -/
def pageFail (n : Nat) : PageInput :=
  { pageNum := n, payload := "img", response := errResponse 500 "server error" }

/-- PDF info carrying a title but no author and no subject. -/
def rawW : RawPdfInfo :=
  { title := some "T", author := none, subject := none,
    creator := none, producer := none }

/-- The metadata dictionary the pipeline builds from `rawW`. -/
def metaW : PdfMeta := get_pdf_metadata rawW 3

/-- An arbitrary re-encoding size function. -/
def encodeW : Nat → Nat → Nat := fun w h => w * h

/-- An image within the byte budget. -/
def imgSmall : ImageFile :=
  { path := "small.png", width := 100, height := 50, sizeBytes := 1000 }

/-- An image at four times the byte budget, so the scale factor is 1/2. -/
def imgBig : ImageFile :=
  { path := "big.png", width := 1000, height := 800, sizeBytes := 20971520 }

/-- A filesystem where `a.md` and `c.md` exist and everything else does not. -/
def fsW : String → Option String :=
  fun p => if p = "a.md" then some "  A  " else if p = "c.md" then some "C" else none

/-- Arguments requesting translation without a target language. -/
def argsW : Args :=
  { pdfExists := true, translate := true, targetLanguage := none,
    startPage := none, endPage := none, debug := false }

/-- Concatenation of a list of strings, used to state the TOC entry list. -/
def concatAll : List String → String
  | [] => ""
  | s :: r => s ++ concatAll r

/-!
## Helper lemmas
-/

theorem leadsWith_refl_append (pat rest : List Char) :
    leadsWith pat (pat ++ rest) = true := by
  induction pat with
  | nil => rfl
  | cons p ps ih => simp [leadsWith, ih]

theorem leadsWith_eq_append : ∀ {pat l : List Char}, leadsWith pat l = true →
    pat ++ l.drop pat.length = l := by
  intro pat
  induction pat with
  | nil => intro l _; simp
  | cons p ps ih =>
    intro l h
    cases l with
    | nil => simp [leadsWith] at h
    | cons c cs =>
      simp only [leadsWith, Bool.and_eq_true, beq_iff_eq] at h
      obtain ⟨h1, h2⟩ := h
      simp [List.drop, h1, ih h2]

theorem splitFirst_eq {pat : List Char} : ∀ {l b a : List Char},
    splitFirst pat l = some (b, a) → l = b ++ pat ++ a := by
  intro l
  induction l with
  | nil =>
    intro b a h
    unfold splitFirst at h
    split at h
    · next hp =>
      simp only [Option.some.injEq, Prod.mk.injEq] at h
      obtain ⟨hb, ha⟩ := h
      subst hb; subst ha
      simp [List.isEmpty_iff.mp hp]
    · exact absurd h (by simp)
  | cons c rest ih =>
    intro b a h
    unfold splitFirst at h
    split at h
    · next hlw =>
      simp only [Option.some.injEq, Prod.mk.injEq] at h
      obtain ⟨hb, ha⟩ := h
      subst hb; subst ha
      simpa using (leadsWith_eq_append hlw).symm
    · next =>
      cases hsf : splitFirst pat rest with
      | none => rw [hsf] at h; exact absurd h (by simp)
      | some ba =>
        obtain ⟨b', a'⟩ := ba
        rw [hsf] at h
        simp only [Option.some.injEq, Prod.mk.injEq] at h
        obtain ⟨hb, ha⟩ := h
        subst hb; subst ha
        simpa using ih hsf

theorem splitFirst_length {pat : List Char} {l b a : List Char}
    (h : splitFirst pat l = some (b, a)) :
    a.length + pat.length + b.length = l.length := by
  have := splitFirst_eq h
  subst this
  simp [List.length_append]
  omega

theorem stripThinkingFuel_nil (f : Nat) : stripThinkingFuel f [] = [] := by
  have h0 : splitFirst openTag ([] : List Char) = none := by decide
  cases f with
  | zero => rfl
  | succ f => simp [stripThinkingFuel, h0]

theorem stripThinkingFuel_congr : ∀ (f₁ : Nat) (l : List Char) (f₂ : Nat),
    l.length ≤ f₁ → l.length ≤ f₂ →
    stripThinkingFuel f₁ l = stripThinkingFuel f₂ l := by
  intro f₁
  induction f₁ with
  | zero =>
    intro l f₂ h1 _
    have : l = [] := List.eq_nil_of_length_eq_zero (Nat.le_zero.mp h1)
    subst this
    simp [stripThinkingFuel_nil]
  | succ f ih =>
    intro l f₂ h1 h2
    cases l with
    | nil => simp [stripThinkingFuel_nil]
    | cons c rest =>
      cases f₂ with
      | zero => simp at h2
      | succ f₂' =>
        show stripThinkingFuel (f + 1) (c :: rest)
          = stripThinkingFuel (f₂' + 1) (c :: rest)
        unfold stripThinkingFuel
        cases h3 : splitFirst openTag (c :: rest) with
        | none => simp [h3]
        | some br =>
          obtain ⟨b, r⟩ := br
          cases h4 : splitFirst closeTag r with
          | none => simp [h3, h4]
          | some ma =>
            obtain ⟨m, a⟩ := ma
            simp only [h3, h4]
            have hl3 := splitFirst_length h3
            have hl4 := splitFirst_length h4
            have ho : openTag.length = 10 := by decide
            have hc : closeTag.length = 11 := by decide
            rw [ho] at hl3
            rw [hc] at hl4
            simp only [List.length_cons] at hl3 h1 h2
            have hlen : a.length ≤ f ∧ a.length ≤ f₂' := by omega
            rw [ih a f₂' hlen.1 hlen.2]

theorem splitFirst_prefix_marker {h : Char} {t : List Char} :
    ∀ (pre rest : List Char), (∀ c ∈ pre, c ≠ h) →
    splitFirst (h :: t) (pre ++ (h :: t) ++ rest) = some (pre, rest) := by
  intro pre
  induction pre with
  | nil =>
    intro rest _
    show splitFirst (h :: t) (h :: (t ++ rest)) = some ([], rest)
    have hlw : leadsWith (h :: t) (h :: (t ++ rest)) = true := by
      have := leadsWith_refl_append (h :: t) rest
      simpa [List.cons_append] using this
    unfold splitFirst
    simp only [hlw, if_true]
    simp only [List.length_cons, List.drop_succ_cons]
    rw [List.drop_left]
  | cons c pre' ih =>
    intro rest hpre
    have hc : c ≠ h := hpre c (List.mem_cons_self _ _)
    have hlw : leadsWith (h :: t) (c :: (pre' ++ (h :: t) ++ rest)) = false := by
      simp only [leadsWith, Bool.and_eq_false_iff]
      left
      exact beq_eq_false_iff_ne.mpr (fun heq => hc heq.symm)
    show splitFirst (h :: t) (c :: (pre' ++ (h :: t) ++ rest)) = some (c :: pre', rest)
    unfold splitFirst
    simp only [hlw, Bool.false_eq_true, if_false]
    rw [ih rest (fun c' hc' => hpre c' (List.mem_cons_of_mem _ hc'))]

theorem stripThinkingFuel_block (f : Nat) (pre mid post : List Char)
    (hpre : ∀ c ∈ pre, c ≠ '<') (hmid : ∀ c ∈ mid, c ≠ '<') :
    stripThinkingFuel (f + 1) (pre ++ openTag ++ mid ++ closeTag ++ post)
      = pre ++ stripThinkingFuel f post := by
  have hopen : openTag = '<' :: "thinking>".data := by decide
  have hclose : closeTag = '<' :: "/thinking>".data := by decide
  have h1 : splitFirst openTag (pre ++ openTag ++ mid ++ closeTag ++ post)
      = some (pre, mid ++ closeTag ++ post) := by
    rw [hopen]
    have := splitFirst_prefix_marker (h := '<') (t := "thinking>".data) pre
      (mid ++ closeTag ++ post) hpre
    simpa [List.append_assoc] using this
  have h2 : splitFirst closeTag (mid ++ closeTag ++ post) = some (mid, post) := by
    rw [hclose]
    have := splitFirst_prefix_marker (h := '<') (t := "/thinking>".data) mid post hmid
    simpa [List.append_assoc] using this
  conv_lhs => rw [stripThinkingFuel]
  simp only [h1, h2]

theorem stripThinkingL_block (pre mid post : List Char)
    (hpre : ∀ c ∈ pre, c ≠ '<') (hmid : ∀ c ∈ mid, c ≠ '<') :
    stripThinkingL (pre ++ openTag ++ mid ++ closeTag ++ post)
      = pre ++ stripThinkingL post := by
  have ho : openTag.length = 10 := by decide
  have hc : closeTag.length = 11 := by decide
  have hlen : (pre ++ openTag ++ mid ++ closeTag ++ post).length
      = pre.length + mid.length + post.length + 20 + 1 := by
    simp [List.length_append, ho, hc]
    omega
  unfold stripThinkingL
  rw [hlen, stripThinkingFuel_block _ pre mid post hpre hmid]
  congr 1
  exact stripThinkingFuel_congr _ post post.length (by omega) (by omega)

theorem collapseNLGo_replicate (k : Nat) : ∀ (j : Nat) (l : List Char),
    collapseNLGo j (List.replicate k '\n' ++ l) = collapseNLGo (j + k) l := by
  induction k with
  | zero => intro j l; simp
  | succ n ih =>
    intro j l
    have step : collapseNLGo j (List.replicate (n + 1) '\n' ++ l)
        = collapseNLGo (j + 1) (List.replicate n '\n' ++ l) := by
      simp [List.replicate_succ, collapseNLGo]
    rw [step, ih (j + 1)]
    congr 1
    omega

theorem collapseNL_run (k : Nat) (c : Char) (rest : List Char)
    (h3 : 3 ≤ k) (hc : c ≠ '\n') :
    collapseNL (List.replicate k '\n' ++ c :: rest)
      = '\n' :: '\n' :: c :: collapseNL rest := by
  unfold collapseNL
  rw [collapseNLGo_replicate]
  simp [collapseNLGo, hc, emitNL, h3]

/-!
## Claim theorems
-/

/-- C3: `process_page` raises an error if and only if the transport status is
not 200 (the error carrying the status and response body, with exactly one
request sent and no retry) or the status is 200 but the parsed body lacks
`choices[0].message.content` (the error carrying the raw body); otherwise it
returns the cleaned text. -/
theorem c3_process_page_errors :
    (∀ resp : HttpResponse, resp.status ≠ 200 →
      processPageResult resp = .error (.upstream resp.status resp.text))
    ∧ (∀ resp : HttpResponse, resp.status = 200 → extractContent resp.body = none →
      processPageResult resp = .error (.malformed resp.body))
    ∧ (∀ (resp : HttpResponse) (c : String), resp.status = 200 →
      extractContent resp.body = some c →
      processPageResult resp = .ok (cleanResponse c))
    ∧ (∀ resp : HttpResponse,
      (∃ e, processPageResult resp = .error e) ↔
        resp.status ≠ 200 ∨ extractContent resp.body = none)
    ∧ (∀ t t' : Nat → HttpResponse, t 0 = t' 0 →
      processPageTransport t = processPageTransport t')
    ∧ (∀ t : Nat → HttpResponse, (processPageTransport t).2 = 1) := by
  refine ⟨?_, ?_, ?_, ?_, ?_, ?_⟩
  · intro resp h
    simp [processPageResult, h]
  · intro resp h200 hext
    simp [processPageResult, h200, hext]
  · intro resp c h200 hext
    simp [processPageResult, h200, hext]
  · intro resp
    constructor
    · rintro ⟨e, he⟩
      by_cases hs : resp.status = 200
      · cases hext : extractContent resp.body with
        | some c => simp [processPageResult, hs, hext] at he
        | none => exact Or.inr rfl
      · exact Or.inl hs
    · intro h
      rcases h with hs | hext
      · exact ⟨.upstream resp.status resp.text, by simp [processPageResult, hs]⟩
      · by_cases hs : resp.status = 200
        · exact ⟨.malformed resp.body, by simp [processPageResult, hs, hext]⟩
        · exact ⟨.upstream resp.status resp.text, by simp [processPageResult, hs]⟩
  · intro t t' h
    simp [processPageTransport, h]
  · intro t
    rfl

/-- Witness for C3 at concrete responses: a 500 failure, a 200 response with
an empty choice array, and a well-formed 200 response. -/
theorem c3_witness :
    processPageResult (errResponse 500 "boom") = .error (.upstream 500 "boom")
    ∧ processPageResult noChoicesResponse
        = .error (.malformed noChoicesResponse.body)
    ∧ processPageResult (okResponse "Hello") = .ok "Hello" := by
  refine ⟨c3_process_page_errors.1 _ (by decide),
    c3_process_page_errors.2.1 _ rfl rfl, ?_⟩
  exact (c3_process_page_errors.2.2.1 (okResponse "Hello") "Hello" rfl rfl).trans
    (congrArg Except.ok (by decide))

/-- C4 (amended): the post-processing strips any `<thinking>...</thinking>`
scratch block (non-greedy, across lines, delimiters included) without
touching text outside the delimiters, and collapses runs of three or more
newlines to exactly two; for the response text
`"<thinking>X</thinking>\n\nY"` the cleaned output is `"\n\nY"` — the two
remaining newlines are kept, since a run of two is below the collapse
threshold (the claim's asserted output `"Y"` is wrong). -/
theorem c4_clean_amended :
    (∀ pre mid post : List Char, (∀ c ∈ pre, c ≠ '<') → (∀ c ∈ mid, c ≠ '<') →
      stripThinkingL (pre ++ openTag ++ mid ++ closeTag ++ post)
        = pre ++ stripThinkingL post)
    ∧ (∀ (k : Nat) (c : Char) (rest : List Char), 3 ≤ k → c ≠ '\n' →
      collapseNL (List.replicate k '\n' ++ c :: rest)
        = '\n' :: '\n' :: c :: collapseNL rest)
    ∧ cleanResponse "<thinking>X</thinking>\n\nY" = "\n\nY" :=
  ⟨stripThinkingL_block, collapseNL_run, by decide⟩

/-- Counterexample for C4 as stated: the cleaned output of
`"<thinking>X</thinking>\n\nY"` is `"\n\nY"`, not `"Y"`. -/
theorem c4_counterexample :
    cleanResponse "<thinking>X</thinking>\n\nY" = "\n\nY"
      ∧ ("\n\nY" : String) ≠ "Y" :=
  ⟨by decide, by decide⟩

/-- Witness for C4 at concrete texts. -/
theorem c4_witness :
    stripThinkingL ("A".data ++ openTag ++ "note".data ++ closeTag ++ "B".data)
        = "A".data ++ stripThinkingL "B".data
      ∧ collapseNL (List.replicate 4 '\n' ++ 'Z' :: [])
        = '\n' :: '\n' :: 'Z' :: collapseNL [] :=
  ⟨c4_clean_amended.1 "A".data "note".data "B".data (by decide) (by decide),
    c4_clean_amended.2.1 4 'Z' [] (by decide) (by decide)⟩

/-- C5: an image at or under the 5 MiB budget is returned unchanged (same
path, same dimensions); an image over the budget has both dimensions scaled
by the single factor `sqrt(budget / actual_size)` rounded down, is re-encoded
and overwritten in place (same path), and the resulting byte size is whatever
the single re-encoding produces — no iteration enforces the target. -/
theorem c5_resize_policy :
    (∀ (encode : Nat → Nat → Nat) (img : ImageFile),
      img.sizeBytes ≤ MAX_IMAGE_SIZE → resize_image_if_needed encode img = img)
    ∧ (∀ (encode : Nat → Nat → Nat) (img : ImageFile),
      MAX_IMAGE_SIZE < img.sizeBytes →
      (resize_image_if_needed encode img).path = img.path
      ∧ (resize_image_if_needed encode img).width
          = ⌊(img.width : ℝ) * Real.sqrt ((MAX_IMAGE_SIZE : ℝ) / (img.sizeBytes : ℝ))⌋₊
      ∧ (resize_image_if_needed encode img).height
          = ⌊(img.height : ℝ) * Real.sqrt ((MAX_IMAGE_SIZE : ℝ) / (img.sizeBytes : ℝ))⌋₊
      ∧ (resize_image_if_needed encode img).sizeBytes
          = encode ⌊(img.width : ℝ) * Real.sqrt ((MAX_IMAGE_SIZE : ℝ) / (img.sizeBytes : ℝ))⌋₊
              ⌊(img.height : ℝ) * Real.sqrt ((MAX_IMAGE_SIZE : ℝ) / (img.sizeBytes : ℝ))⌋₊) := by
  constructor
  · intro encode img h
    simp [resize_image_if_needed, h]
  · intro encode img h
    have hn : ¬ img.sizeBytes ≤ MAX_IMAGE_SIZE := Nat.not_le.mpr h
    refine ⟨?_, ?_, ?_, ?_⟩ <;> simp [resize_image_if_needed, hn]

/-- Witness for C5: a 1000-byte image passes through unchanged; a
4-times-over-budget 1000×800 image is scaled by `sqrt(1/4) = 1/2` to 500×400
at the same path. -/
theorem c5_witness :
    resize_image_if_needed encodeW imgSmall = imgSmall
    ∧ (resize_image_if_needed encodeW imgBig).path = "big.png"
    ∧ (resize_image_if_needed encodeW imgBig).width = 500
    ∧ (resize_image_if_needed encodeW imgBig).height = 400 := by
  have h1 := c5_resize_policy.1 encodeW imgSmall
    (by norm_num [imgSmall, MAX_IMAGE_SIZE])
  have h2 := c5_resize_policy.2 encodeW imgBig
    (by norm_num [imgBig, MAX_IMAGE_SIZE])
  obtain ⟨hp, hw, hh, _⟩ := h2
  have hq : (MAX_IMAGE_SIZE : ℝ) / (imgBig.sizeBytes : ℝ) = (1 / 2 : ℝ) ^ 2 := by
    norm_num [MAX_IMAGE_SIZE, imgBig]
  have hs : Real.sqrt ((MAX_IMAGE_SIZE : ℝ) / (imgBig.sizeBytes : ℝ)) = 1 / 2 := by
    rw [hq, Real.sqrt_sq (by norm_num : (0 : ℝ) ≤ 1 / 2)]
  refine ⟨h1, hp, ?_, ?_⟩
  · rw [hw, hs]
    norm_num [imgBig]
  · rw [hh, hs]
    norm_num [imgBig]

theorem pageStep_contextPassed (cfg : RunConfig) (p : PageInput) :
    (pageStep cfg p).contextPassed = "" := by
  cases h : processPageResult p.response <;> simp [pageStep, h]

theorem pageStep_pageNum (cfg : RunConfig) (p : PageInput) :
    (pageStep cfg p).pageNum = p.pageNum := by
  cases h : processPageResult p.response <;> simp [pageStep, h]

theorem pageStep_artifact_err (cfg : RunConfig) (p : PageInput) (e : ApiError)
    (h : processPageResult p.response = .error e) :
    (pageStep cfg p).artifact = none := by
  simp [pageStep, h]

theorem processLoop_append (cfg : RunConfig) (xs ys : List PageInput) :
    processLoop cfg (xs ++ ys) = processLoop cfg xs ++ processLoop cfg ys := by
  induction xs with
  | nil => rfl
  | cons p rest ih => simp [processLoop, ih]

theorem artifactsOf_append (cfg : RunConfig) (xs ys : List PageInput) :
    artifactsOf cfg (xs ++ ys) = artifactsOf cfg xs ++ artifactsOf cfg ys := by
  simp [artifactsOf, processLoop_append, List.filterMap_append]

/-- C1 (amended): for every run and every `context_window` value — not only
0 — the context string passed with each page's request is the empty string
(`previous_context = ""` on every iteration), and no context block is
materialized in any request: the messages the client builds are identical
whatever context it is handed.  The `context_window_size = 0` half of the
claim holds as stated; the `N > 0` half does not, because the loop never
renders any history. -/
theorem c1_context_always_empty :
    (∀ (cfg : RunConfig) (pages : List PageInput),
      (processLoop cfg pages).map PageTrace.contextPassed
        = List.replicate pages.length "")
    ∧ (∀ (translate : Bool) (targetLanguage : Option String)
        (base64Image instructions c c' : String),
      buildMessages translate targetLanguage base64Image instructions c
        = buildMessages translate targetLanguage base64Image instructions c') := by
  constructor
  · intro cfg pages
    induction pages with
    | nil => rfl
    | cons p rest ih =>
      simp [processLoop, pageStep_contextPassed, ih, List.replicate_succ]
  · intro _ _ _ _ _ _
    rfl

/-- Counterexample for C1 as stated: a run with `context_window = 2` and
three successful pages "P1", "P2", "P3" passes the empty context with the
third page's request, not the concatenation `"P1\n\nP2"` of the last two
cleaned outputs. -/
theorem c1_counterexample :
    (processLoop cfgW [pageOk 1 "P1", pageOk 2 "P2", pageOk 3 "P3"]).map
        PageTrace.contextPassed = ["", "", ""]
    ∧ artifactsOf cfgW [pageOk 1 "P1", pageOk 2 "P2", pageOk 3 "P3"]
        = [(1, "P1"), (2, "P2"), (3, "P3")]
    ∧ cfgW.contextWindow = 2
    ∧ ("" : String) ≠ "P1\n\nP2" :=
  ⟨by decide, by decide, by decide, by decide⟩

/-- C2: a failing page never aborts the loop (one trace entry per page, in
order), contributes no artifact, is absent from the merge input, and leaves
every other page's artifact and the merged document exactly as they would be
had the page not been in the run; page contributions compose by
concatenation. -/
theorem c2_failure_isolation :
    (∀ (cfg : RunConfig) (pages : List PageInput),
      (processLoop cfg pages).map PageTrace.pageNum = pages.map PageInput.pageNum)
    ∧ (∀ (cfg : RunConfig) (xs ys : List PageInput),
      artifactsOf cfg (xs ++ ys) = artifactsOf cfg xs ++ artifactsOf cfg ys)
    ∧ (∀ (cfg : RunConfig) (xs ys : List PageInput) (p : PageInput) (e : ApiError),
      processPageResult p.response = .error e →
      artifactsOf cfg (xs ++ p :: ys) = artifactsOf cfg (xs ++ ys))
    ∧ (∀ (meta : PdfMeta) (cfg : RunConfig) (xs ys : List PageInput)
        (p : PageInput) (e : ApiError),
      processPageResult p.response = .error e →
      mergedDocument meta cfg (xs ++ p :: ys) = mergedDocument meta cfg (xs ++ ys)
        ∧ finalDocument meta cfg (xs ++ p :: ys) = finalDocument meta cfg (xs ++ ys)) := by
  have hskip : ∀ (cfg : RunConfig) (xs ys : List PageInput) (p : PageInput)
      (e : ApiError), processPageResult p.response = .error e →
      artifactsOf cfg (xs ++ p :: ys) = artifactsOf cfg (xs ++ ys) := by
    intro cfg xs ys p e h
    have hx : (pageStep cfg p).artifact = none := pageStep_artifact_err cfg p e h
    rw [artifactsOf_append, artifactsOf_append]
    congr 1
    simp [artifactsOf, processLoop, List.filterMap_cons, hx]
  refine ⟨?_, artifactsOf_append, hskip, ?_⟩
  · intro cfg pages
    induction pages with
    | nil => rfl
    | cons p rest ih => simp [processLoop, pageStep_pageNum, ih]
  · intro meta cfg xs ys p e h
    have hm : mergedDocument meta cfg (xs ++ p :: ys)
        = mergedDocument meta cfg (xs ++ ys) := by
      unfold mergedDocument
      rw [hskip cfg xs ys p e h]
    exact ⟨hm, congrArg add_table_of_contents hm⟩

/-- Witness for C2: a three-page run whose second page fails with a 500
produces the artifacts, page order, and merged document of the same run
without the failing page. -/
theorem c2_witness :
    artifactsOf cfgW [pageOk 1 "P1", pageFail 2, pageOk 3 "P3"]
        = artifactsOf cfgW [pageOk 1 "P1", pageOk 3 "P3"]
    ∧ (processLoop cfgW [pageOk 1 "P1", pageFail 2, pageOk 3 "P3"]).map
        PageTrace.pageNum = [1, 2, 3]
    ∧ mergedDocument metaW cfgW [pageOk 1 "P1", pageFail 2, pageOk 3 "P3"]
        = mergedDocument metaW cfgW [pageOk 1 "P1", pageOk 3 "P3"] := by
  have h : processPageResult (pageFail 2).response
      = .error (.upstream 500 "server error") := by rfl
  refine ⟨c2_failure_isolation.2.2.1 cfgW [pageOk 1 "P1"] [pageOk 3 "P3"]
      (pageFail 2) _ h, ?_,
    (c2_failure_isolation.2.2.2 metaW cfgW [pageOk 1 "P1"] [pageOk 3 "P3"]
      (pageFail 2) _ h).1⟩
  rw [c2_failure_isolation.1 cfgW [pageOk 1 "P1", pageFail 2, pageOk 3 "P3"]]
  decide

/-- C6: in a document whose headings are exactly `# Title`, `## A`, `### B`,
the generated TOC holds exactly three entries, indented by 0, 2 and 4 spaces
(`2 * (level - 1)`), with anchors `title`, `a`, `b` — the heading text
lowercased, spaces hyphenated, other non-word characters stripped. -/
theorem c6_toc_example : ∀ content : String,
    findHeaders content = [(1, "Title"), (2, "A"), (3, "B")] →
    tocOf content
      = "## Содержание\n\n- [Title](#title)\n  - [A](#a)\n    - [B](#b)\n" := by
  intro content h
  unfold tocOf
  rw [h]
  decide

/-- Witness for C6 at a concrete three-heading document. -/
theorem c6_witness :
    findHeaders "# Title\nintro\n## A\nstuff\n### B"
        = [(1, "Title"), (2, "A"), (3, "B")]
    ∧ tocOf "# Title\nintro\n## A\nstuff\n### B"
        = "## Содержание\n\n- [Title](#title)\n  - [A](#a)\n    - [B](#b)\n" :=
  ⟨by decide, c6_toc_example _ (by decide)⟩

/-- C7 (amended): the generated TOC has one entry per Markdown heading,
except that headings titled `"Содержание"` (case-insensitive) — not
"Table of Contents", "Contents" or "TOC" — are excluded. -/
theorem c7_toc_skips_only_russian : ∀ content : String,
    tocLines (findHeaders content)
      = concatAll (((findHeaders content).filter
          (fun h => !(lowerStr h.2 == "содержание"))).map
        (fun h => tocEntryLine h.1 h.2)) := by
  have haux : ∀ hs : List (Nat × String), tocLines hs
      = concatAll ((hs.filter (fun h => !(lowerStr h.2 == "содержание"))).map
        (fun h => tocEntryLine h.1 h.2)) := by
    intro hs
    induction hs with
    | nil => rfl
    | cons p rest ih =>
      obtain ⟨lvl, text⟩ := p
      cases hb : (lowerStr text == "содержание") <;>
        simp [tocLines, List.filter_cons, hb, concatAll, ih]
  intro content
  exact haux (findHeaders content)

/-- Counterexample for C7 as stated: a heading literally titled "Contents"
is NOT excluded — the generated TOC contains an entry for it. -/
theorem c7_counterexample :
    tocOf "# Guide\n## Contents"
        = "## Содержание\n\n- [Guide](#guide)\n  - [Contents](#contents)\n"
    ∧ hasSubstr "[Contents](#contents)" (tocOf "# Guide\n## Contents") = true :=
  ⟨by decide, by decide⟩

/-- C8 (amended): the assembled header always holds a title line and ends
with the separator rule; a present non-empty author or subject gets its own
line and an empty-string value is omitted; but an ABSENT title or author is
not omitted — the metadata reader substitutes the placeholder `"Unknown"`,
so the header then contains `# Unknown` or `**Автор**: Unknown`.  Only an
absent subject is genuinely omitted. -/
theorem c8_header_placeholders : ∀ (raw : RawPdfInfo) (pageCount : Nat),
    headerOfDict (some (toDict (get_pdf_metadata raw pageCount)))
      = "# " ++ (match raw.title with | some t => t | none => "Unknown") ++ "\n\n"
        ++ (match raw.author with
            | some a => if a ≠ "" then "**Автор**: " ++ a ++ "\n\n" else ""
            | none => "**Автор**: Unknown\n\n")
        ++ (match raw.subject with
            | some s => if s ≠ "" then "**Описание**: " ++ s ++ "\n\n" else ""
            | none => "")
        ++ "---\n\n" := by
  intro raw pc
  obtain ⟨t, a, s, cr, pr⟩ := raw
  cases t <;> cases a <;> cases s <;>
    simp [headerOfDict, get_pdf_metadata, toDict, truthyOpt]

/-- Counterexample for C8 as stated: with title `"T"` and no author in the
PDF, the header contains the placeholder line `**Автор**: Unknown` instead
of omitting the missing field. -/
theorem c8_counterexample :
    headerOfDict (some (toDict (get_pdf_metadata rawW 3)))
        = "# T\n\n**Автор**: Unknown\n\n---\n\n"
    ∧ hasSubstr "**Автор**: Unknown"
        (headerOfDict (some (toDict (get_pdf_metadata rawW 3)))) = true :=
  ⟨by decide, by decide⟩

/-- C9 (amended): `main` rejects `translate` with an empty/absent target
language by returning exit code 1 before `process_datasheet` runs, so no
page is processed; the instruction builder itself does NOT fail on that
configuration — it falls back to the extraction instruction. -/
theorem c9_translate_validation :
    (∀ a : Args, a.translate = true → truthyOpt a.targetLanguage = false →
      mainDispatch a = .exitEarly 1)
    ∧ (∀ (targetLanguage : Option String) (pageNum totalPages : Nat),
      truthyOpt targetLanguage = false →
      buildInstruction true targetLanguage pageNum totalPages
        = formatPageInstruction pageNum totalPages) := by
  constructor
  · intro a h1 h2
    cases hp : a.pdfExists <;> simp [mainDispatch, hp, h1, h2]
  · intro tl n total h
    simp [buildInstruction, h]

/-- Counterexample for the builder half of C9 as stated: with
`translate = true` and no target language the builder produces the ordinary
extraction instruction — exactly what it produces without the translate
flag — rather than failing. -/
theorem c9_counterexample :
    buildInstruction true none 2 5 = formatPageInstruction 2 5
    ∧ buildInstruction true none 2 5 = buildInstruction false none 2 5 :=
  ⟨rfl, rfl⟩

/-- Witness for C9 at a concrete argument record. -/
theorem c9_witness :
    mainDispatch argsW = .exitEarly 1
    ∧ buildInstruction true (some "") 4 9 = formatPageInstruction 4 9 :=
  ⟨c9_translate_validation.1 argsW rfl rfl,
    c9_translate_validation.2 (some "") 4 9 (by decide)⟩

theorem readContents_append (fs : String → Option String) (xs ys : List String) :
    readContents fs (xs ++ ys) = readContents fs xs ++ readContents fs ys := by
  induction xs with
  | nil => rfl
  | cons p rest ih => cases h : fs p <;> simp [readContents, h, ih]

/-- C10: `merge_markdown_files` merges exactly the stripped contents of the
existing paths, in list order; a path that does not exist on disk is skipped
silently, contributing nothing and raising no error. -/
theorem c10_merge_skips_missing :
    (∀ (fs : String → Option String) (metadata : Option MetaDict)
        (xs ys : List String) (p : String), fs p = none →
      merge_markdown_files fs (xs ++ p :: ys) metadata
        = merge_markdown_files fs (xs ++ ys) metadata)
    ∧ (∀ (fs : String → Option String) (paths : List String),
      readContents fs paths
        = (paths.filter (fun q => (fs q).isSome)).map
            (fun q => pyStrip ((fs q).getD ""))) := by
  constructor
  · intro fs meta xs ys p h
    have hX : readContents fs (xs ++ p :: ys) = readContents fs (xs ++ ys) := by
      rw [readContents_append, readContents_append]
      congr 1
      simp [readContents, h]
    simp [merge_markdown_files, hX]
  · intro fs paths
    induction paths with
    | nil => rfl
    | cons p rest ih =>
      cases h : fs p <;> simp [readContents, h, List.filter_cons, ih]

/-- Witness for C10: merging `a.md`, `b.md`, `c.md` where `b.md` does not
exist equals merging `a.md` and `c.md`. -/
theorem c10_witness :
    merge_markdown_files fsW ["a.md", "b.md", "c.md"] none
      = merge_markdown_files fsW ["a.md", "c.md"] none :=
  c10_merge_skips_missing.1 fsW none ["a.md"] ["c.md"] "b.md" (by decide)
